import Mathlib

/-!
Verification of the user-based collaborative-filtering pipeline described by
the repository's specification (notebook "4_Collaborative Filtering.ipynb").
The notebook's core functions are unfilled exercise stubs (docstrings plus a
bare return of an undefined name), so every operation below is modelled from
the specification's own description of the pipeline: Matrix Builder output
(the sparse User-Item Matrix), Activity Filter, Similarity Engine (Pearson
correlation and Euclidean distance over commonly rated items), and the
Recommender (nearest neighbors, liked movies, per-user and batch
recommendations).

Ratings are integers on a 1-10 scale per the spec's external-interface
section, so they are embedded as integers; statistics that divide (mean,
variance, covariance) live in the rationals, and the two metric values, which
take square roots, live in the reals.  Undefined metric values (the source's
NaN sentinels) are modelled as the none case of Option, following the spec's
design note that undefined numeric results should be an explicit
optional/tagged-absent value.
-/

namespace CollabFilter

abbrev UserId := ℕ

abbrev ItemId := ℕ

/-- Modelled from the spec: the User-Item Matrix produced by the Matrix
Builder, together with the item catalog order and the user key order.  It is
a sparse mapping keyed by (user, item); an absent cell (none) means "not
rated", not zero.  The item catalog lists each item once. -/
structure UserItemMatrix where
  items : List ItemId
  users : List UserId
  rating : UserId → ItemId → Option ℤ
  items_nodup : items.Nodup

/-- Modelled from the spec: the Activity Map entry of one user, the set of
item ids that user rated (the notebook's movies_watched). -/
def movies_watched (M : UserItemMatrix) (u : UserId) : Finset ItemId :=
  (M.items.filter (fun i => (M.rating u i).isSome)).toFinset

/-- Modelled from the spec: the Activity Filter.  It keeps exactly the users
whose rated-item set has size strictly greater than lower_bound (the source
default is 2). -/
def create_movies_to_analyze (M : UserItemMatrix) (lower_bound : ℕ) : List UserId :=
  M.users.filter (fun u => decide (lower_bound < (movies_watched M u).card))

/-- Modelled from the spec: the filtered Activity Map used by all later
stages, with the source's default lower bound of 2. -/
def movies_to_analyze (M : UserItemMatrix) : List UserId :=
  create_movies_to_analyze M 2

/-- Modelled from the spec: the commonly rated item set of two users, the
intersection of their rated-item sets. -/
def commonItems (M : UserItemMatrix) (a b : UserId) : Finset ItemId :=
  movies_watched M a ∩ movies_watched M b

/-- Rating of a user on an item, with the default value 0 for padding; the
similarity metrics only read it on items both users actually rated. -/
def ratingD (M : UserItemMatrix) (u : UserId) (i : ItemId) : ℤ :=
  (M.rating u i).getD 0

/-- Modelled from the spec: the mean of a user's ratings over an item set. -/
def smean (M : UserItemMatrix) (u : UserId) (s : Finset ItemId) : ℚ :=
  (Finset.sum s (fun i => (ratingD M u i : ℚ))) / s.card

/-- Modelled from the spec: the sample covariance of two users' rating
vectors over a common item set, with the n-1 denominator. -/
def scov (M : UserItemMatrix) (a b : UserId) (s : Finset ItemId) : ℚ :=
  (Finset.sum s (fun i =>
    ((ratingD M a i : ℚ) - smean M a s) * ((ratingD M b i : ℚ) - smean M b s)))
    / ((s.card : ℚ) - 1)

/-- Modelled from the spec: the sample variance of a user's rating vector
over an item set (the square of the spec's STDEV), which is the covariance of
the vector with itself. -/
def svar (M : UserItemMatrix) (u : UserId) (s : Finset ItemId) : ℚ :=
  scov M u u s

/-- Modelled from the spec: the correlation metric compute_correlation.  It
intersects the two users' rated-item sets; an empty intersection is
undefined (none); a zero sample variance of either restricted vector is
undefined (none); otherwise it is the sample Pearson coefficient, covariance
over the product of the sample standard deviations. -/
noncomputable def compute_correlation (M : UserItemMatrix) (a b : UserId) : Option ℝ :=
  if commonItems M a b = ∅ then none
  else if svar M a (commonItems M a b) = 0 ∨ svar M b (commonItems M a b) = 0 then none
  else some ((scov M a b (commonItems M a b) : ℝ) /
    (Real.sqrt (svar M a (commonItems M a b)) * Real.sqrt (svar M b (commonItems M a b))))

/-- Modelled from the spec: the sum of squared per-item rating differences
over the two users' commonly rated item set, none when that set is empty.
The Euclidean metric is the square root of this quantity. -/
def distSq (M : UserItemMatrix) (a b : UserId) : Option ℤ :=
  if commonItems M a b = ∅ then none
  else some (Finset.sum (commonItems M a b) (fun i =>
    (ratingD M a i - ratingD M b i) * (ratingD M a i - ratingD M b i)))

/-- Modelled from the spec: the Euclidean metric compute_euclidean_dist, the
square root of the sum of squared per-item rating differences over the
commonly rated item set, undefined (none) when that set is empty. -/
noncomputable def compute_euclidean_dist (M : UserItemMatrix) (a b : UserId) : Option ℝ :=
  (distSq M a b).map (fun q : ℤ => Real.sqrt (q : ℝ))

/-- Sort key for neighbor ordering: the squared Euclidean distance to the
target user (the square root is monotone, so ordering by the squared
distance is ordering by ascending Euclidean distance). -/
def neighborKey (M : UserItemMatrix) (user v : UserId) : ℤ :=
  (distSq M user v).getD 0

/-- The neighbor ranking of a user of the filtered Activity Map: the other
users of the map, with the users whose distance to the target is undefined
excluded, ordered by ascending Euclidean distance (ties kept in the
deterministic original key order by a stable insertion sort). -/
def rankedNeighbors (M : UserItemMatrix) (user : UserId) : List UserId :=
  List.insertionSort (fun a b => neighborKey M user a ≤ neighborKey M user b)
    ((movies_to_analyze M).filter
      (fun v => decide (v ≠ user) && (distSq M user v).isSome))

/-- Modelled from the spec: find_closest_neighbors.  Its input is a user id
present in the filtered Activity Map; a user id absent from the map is a
lookup failure (none), as the spec's error-handling design requires of the
Recommender functions.  For a present user it returns the neighbor
ranking. -/
def find_closest_neighbors (M : UserItemMatrix) (user : UserId) : Option (List UserId) :=
  if user ∈ movies_to_analyze M then some (rankedNeighbors M user) else none

/-- Modelled from the spec: movies_liked, the items a user rated at or above
min_rating (the source default is 7), in catalog order. -/
def movies_liked (M : UserItemMatrix) (u : UserId) (min_rating : ℤ) : List ItemId :=
  M.items.filter (fun i =>
    match M.rating u i with
    | some r => decide (min_rating ≤ r)
    | none => false)

/-- Modelled from the spec: the neighbor walk inside make_recommendations.
For each neighbor in order it takes the neighbor's liked movies, removes the
items the target user has already rated and the items already collected,
appends the rest, and stops once num_recs distinct items are collected or
the neighbors are exhausted. -/
def recsLoop (M : UserItemMatrix) (user : UserId) (numRecs : ℕ) :
    List UserId → List ItemId → List ItemId
  | [], acc => acc
  | n :: ns, acc =>
    if numRecs ≤ acc.length then acc
    else recsLoop M user numRecs ns
      ((acc ++ (movies_liked M n 7).filter
        (fun i => !(M.rating user i).isSome && !(decide (i ∈ acc)))).take numRecs)

/-- Modelled from the spec: make_recommendations.  It walks the result of
find_closest_neighbors, so a user id absent from the filtered Activity Map
propagates the lookup failure (none), distinct from a present user whose
recommendation list is empty (some of the empty list); for a present user
the walk collects up to num_recs liked, not-yet-rated items (the source
default quota is 10). -/
def make_recommendations (M : UserItemMatrix) (user : UserId) (num_recs : ℕ) :
    Option (List ItemId) :=
  (find_closest_neighbors M user).map (fun ns => recsLoop M user num_recs ns [])

/-- Modelled from the spec: all_recommendations, applying the single-user
walk to every user of the filtered Activity Map and returning the mapping
from user id to that user's recommendation list. -/
def all_recommendations (M : UserItemMatrix) (num_recs : ℕ) :
    List (UserId × List ItemId) :=
  (movies_to_analyze M).map
    (fun u => (u, recsLoop M u num_recs (rankedNeighbors M u) []))

/-- Ratings of a small concrete instance of the data model, used to
instantiate the theorems below: users 2, 5, 7 pass the activity filter,
user 4 has exactly two rated items, user 9 shares no item with user 4, and
user 3 has a single rated item. -/
def exRating : UserId → ItemId → Option ℤ
  | 2, 10 => some 8
  | 2, 20 => some 6
  | 2, 30 => some 9
  | 2, 40 => some 2
  | 2, 60 => some 9
  | 5, 10 => some 7
  | 5, 20 => some 6
  | 5, 30 => some 10
  | 7, 10 => some 7
  | 7, 20 => some 7
  | 7, 30 => some 7
  | 4, 10 => some 8
  | 4, 20 => some 3
  | 9, 40 => some 5
  | 9, 50 => some 6
  | 3, 50 => some 9
  | _, _ => none

/-- A small concrete User-Item Matrix over the ratings above. -/
def exM : UserItemMatrix :=
  { items := [10, 20, 30, 40, 50, 60]
    users := [2, 5, 7, 4, 9, 3]
    rating := exRating
    items_nodup := by decide }

/-! Helper lemmas shared by the claim theorems. -/

theorem mem_movies_watched (M : UserItemMatrix) (u : UserId) (i : ItemId) :
    i ∈ movies_watched M u ↔ i ∈ M.items ∧ (M.rating u i).isSome := by
  simp [movies_watched, List.mem_filter]

theorem mem_create_movies_to_analyze (M : UserItemMatrix) (lb : ℕ) (u : UserId) :
    u ∈ create_movies_to_analyze M lb ↔ u ∈ M.users ∧ lb < (movies_watched M u).card := by
  simp [create_movies_to_analyze, List.mem_filter]

theorem commonItems_comm (M : UserItemMatrix) (a b : UserId) :
    commonItems M a b = commonItems M b a :=
  Finset.inter_comm _ _

theorem commonItems_self (M : UserItemMatrix) (u : UserId) :
    commonItems M u u = movies_watched M u :=
  Finset.inter_self _

theorem distSq_comm (M : UserItemMatrix) (a b : UserId) :
    distSq M a b = distSq M b a := by
  unfold distSq
  rw [commonItems_comm M a b]
  rw [Finset.sum_congr rfl (fun i _ =>
    show (ratingD M a i - ratingD M b i) * (ratingD M a i - ratingD M b i)
        = (ratingD M b i - ratingD M a i) * (ratingD M b i - ratingD M a i) by ring)]

theorem scov_comm (M : UserItemMatrix) (a b : UserId) (s : Finset ItemId) :
    scov M a b s = scov M b a s := by
  unfold scov
  rw [Finset.sum_congr rfl (fun i _ => mul_comm
    ((ratingD M a i : ℚ) - smean M a s) ((ratingD M b i : ℚ) - smean M b s))]

theorem euclid_eq_none_iff (M : UserItemMatrix) (a b : UserId) :
    compute_euclidean_dist M a b = none ↔ commonItems M a b = ∅ := by
  unfold compute_euclidean_dist distSq
  by_cases h : commonItems M a b = ∅
  · simp [h]
  · simp [h]

theorem corr_none_of_empty (M : UserItemMatrix) (a b : UserId)
    (h : commonItems M a b = ∅) : compute_correlation M a b = none := by
  unfold compute_correlation
  rw [if_pos h]

theorem lookup_map_self {β : Type} (l : List UserId) (f : UserId → β) (u : UserId)
    (h : u ∈ l) : (l.map (fun v => (v, f v))).lookup u = some (f u) := by
  induction l with
  | nil => cases h
  | cons a t ih =>
    rcases List.mem_cons.mp h with rfl | ht
    · simp [List.lookup]
    · by_cases hua : u = a
      · subst hua; simp [List.lookup]
      · simp [List.lookup, beq_eq_false_iff_ne.mpr hua, ih ht]

theorem lookup_map_of_not_mem {β : Type} (l : List UserId) (f : UserId → β) (u : UserId)
    (h : u ∉ l) : (l.map (fun v => (v, f v))).lookup u = none := by
  induction l with
  | nil => rfl
  | cons a t ih =>
    have hua : u ≠ a := fun he => h (he ▸ List.mem_cons_self a t)
    have hut : u ∉ t := fun he => h (List.mem_cons_of_mem a he)
    simp [List.lookup, beq_eq_false_iff_ne.mpr hua, ih hut]

/-! Claim theorems. -/

/-- C4: for every user u of the data set (every user has at least one rated
item, since users exist only through rating records), the Euclidean distance
metric applied to the pair (u, u) returns exactly 0.0. -/
theorem compute_euclidean_dist_self_zero (M : UserItemMatrix) (u : UserId)
    (h : (movies_watched M u).Nonempty) :
    compute_euclidean_dist M u u = some 0 := by
  unfold compute_euclidean_dist distSq
  rw [commonItems_self M u, if_neg (Finset.nonempty_iff_ne_empty.mp h)]
  rw [Finset.sum_eq_zero (fun i _ => by simp)]
  simp

/-- C4 witness: the Euclidean self-distance of user 2 of the concrete
instance is 0. -/
theorem compute_euclidean_dist_self_zero_inst :
    compute_euclidean_dist exM 2 2 = some 0 :=
  compute_euclidean_dist_self_zero exM 2 (by decide)

/-- C5: both similarity metrics are symmetric in their two user arguments,
including agreement on whether the result is the undefined sentinel. -/
theorem similarity_metrics_symm (M : UserItemMatrix) (a b : UserId) :
    compute_correlation M a b = compute_correlation M b a ∧
    compute_euclidean_dist M a b = compute_euclidean_dist M b a := by
  constructor
  · unfold compute_correlation
    rw [commonItems_comm M a b, scov_comm M a b]
    by_cases h1 : commonItems M b a = ∅
    · rw [if_pos h1, if_pos h1]
    · rw [if_neg h1, if_neg h1]
      by_cases h2 : svar M a (commonItems M b a) = 0 ∨ svar M b (commonItems M b a) = 0
      · rw [if_pos h2, if_pos (Or.symm h2)]
      · rw [if_neg h2, if_neg (fun hc => h2 (Or.symm hc))]
        rw [mul_comm (Real.sqrt (svar M a (commonItems M b a)))
          (Real.sqrt (svar M b (commonItems M b a)))]
  · unfold compute_euclidean_dist
    rw [distSq_comm M a b]

/-- C6: when two users' commonly rated item set is empty, both metrics
return the undefined sentinel (none), a value and not an exception. -/
theorem metrics_undefined_on_empty_intersection (M : UserItemMatrix) (a b : UserId)
    (h : commonItems M a b = ∅) :
    compute_correlation M a b = none ∧ compute_euclidean_dist M a b = none :=
  ⟨corr_none_of_empty M a b h, (euclid_eq_none_iff M a b).mpr h⟩

/-- C6 witness: users 4 and 9 of the concrete instance share no rated item,
and both their metrics are the undefined sentinel. -/
theorem metrics_undefined_on_empty_intersection_inst :
    compute_correlation exM 4 9 = none ∧ compute_euclidean_dist exM 4 9 = none :=
  metrics_undefined_on_empty_intersection exM 4 9 (by decide)

/-- C10: whenever the commonly rated item set is non-empty the Euclidean
distance is defined, so the pairs with undefined Euclidean distance are a
subset of the pairs with undefined correlation (correlation is additionally
undefined on zero-variance restricted vectors). -/
theorem euclidean_defined_subset_correlation (M : UserItemMatrix) (a b : UserId) :
    ((commonItems M a b).Nonempty → (compute_euclidean_dist M a b).isSome = true) ∧
    (compute_euclidean_dist M a b = none → compute_correlation M a b = none) := by
  constructor
  · intro h
    unfold compute_euclidean_dist distSq
    rw [if_neg (Finset.nonempty_iff_ne_empty.mp h)]
    rfl
  · intro h
    exact corr_none_of_empty M a b ((euclid_eq_none_iff M a b).mp h)

/-- C10 witness: users 2 and 7 of the concrete instance overlap (and user
7's restricted ratings are constant, making correlation undefined there),
so their Euclidean distance is defined; users 4 and 9 have an undefined
Euclidean distance and hence an undefined correlation. -/
theorem euclidean_defined_subset_correlation_inst :
    (compute_euclidean_dist exM 2 7).isSome = true ∧ compute_correlation exM 4 9 = none :=
  ⟨(euclidean_defined_subset_correlation exM 2 7).1 (by decide),
   (euclidean_defined_subset_correlation exM 4 9).2
     ((euclid_eq_none_iff exM 4 9).mpr (by decide))⟩

/-- C7: the Activity Filter keeps exactly the entries whose item-set size is
strictly greater than lower_bound, and a user with exactly 2 rated items is
excluded under the default bound 2 and absent from the keys of
all_recommendations. -/
theorem create_movies_to_analyze_exact (M : UserItemMatrix) (lb : ℕ) (u : UserId) :
    (u ∈ create_movies_to_analyze M lb ↔
      u ∈ M.users ∧ lb < (movies_watched M u).card) ∧
    ((movies_watched M u).card = 2 →
      u ∉ movies_to_analyze M ∧
      ∀ k, (all_recommendations M k).lookup u = none) := by
  refine ⟨mem_create_movies_to_analyze M lb u, fun h2 => ⟨?_, ?_⟩⟩
  · intro hmem
    have := (mem_create_movies_to_analyze M 2 u).mp hmem
    omega
  · intro k
    have hni : u ∉ movies_to_analyze M := by
      intro hmem
      have := (mem_create_movies_to_analyze M 2 u).mp hmem
      omega
    exact lookup_map_of_not_mem (movies_to_analyze M) _ u hni

/-- C7 witness: user 4 of the concrete instance rated exactly two items, is
excluded by the default Activity Filter, and is absent from the keys of
all_recommendations. -/
theorem create_movies_to_analyze_exact_inst :
    4 ∉ movies_to_analyze exM ∧ (all_recommendations exM 10).lookup 4 = none := by
  have h := (create_movies_to_analyze_exact exM 2 4).2 (by decide)
  exact ⟨h.1, h.2 10⟩

/-- C2: for every user of the filtered Activity Map and every quota, the
batch path and the single-user path agree: looking the user up in
all_recommendations gives exactly make_recommendations for that user. -/
theorem all_recommendations_consistent (M : UserItemMatrix) (k : ℕ) (u : UserId)
    (h : u ∈ movies_to_analyze M) :
    (all_recommendations M k).lookup u = make_recommendations M u k := by
  unfold all_recommendations make_recommendations find_closest_neighbors
  rw [if_pos h, Option.map_some']
  exact lookup_map_self (movies_to_analyze M)
    (fun v => recsLoop M v k (rankedNeighbors M v) []) u h

/-- C2 witness: the batch and single-user paths agree on user 2 of the
concrete instance at quota 10. -/
theorem all_recommendations_consistent_inst :
    (all_recommendations exM 10).lookup 2 = make_recommendations exM 2 10 :=
  all_recommendations_consistent exM 10 2 (by decide)

/-- C9: a user id absent from the filtered Activity Map is signaled as a
lookup failure (none) by both Recommender functions, find_closest_neighbors
and make_recommendations, distinguishable from the successful result of any
present user, which is always some list (possibly the empty list). -/
theorem recommender_unknown_user (M : UserItemMatrix) (u : UserId) (k : ℕ)
    (h : u ∉ movies_to_analyze M) :
    (find_closest_neighbors M u = none ∧ make_recommendations M u k = none) ∧
    ∀ v ∈ movies_to_analyze M,
      find_closest_neighbors M v ≠ none ∧ make_recommendations M v k ≠ none := by
  have hf : find_closest_neighbors M u = none := by
    unfold find_closest_neighbors
    rw [if_neg h]
  refine ⟨⟨hf, ?_⟩, ?_⟩
  · unfold make_recommendations
    rw [hf]
    rfl
  · intro v hv
    have hfv : find_closest_neighbors M v = some (rankedNeighbors M v) := by
      unfold find_closest_neighbors
      rw [if_pos hv]
    constructor
    · rw [hfv]
      simp
    · unfold make_recommendations
      rw [hfv]
      simp

/-- C9 witness: the unknown user 123 is a lookup failure of both Recommender
functions on the concrete instance, while the known user 2 gets a successful
result from both. -/
theorem recommender_unknown_user_inst :
    (find_closest_neighbors exM 123 = none ∧ make_recommendations exM 123 10 = none) ∧
    (find_closest_neighbors exM 2 ≠ none ∧ make_recommendations exM 2 10 ≠ none) :=
  ⟨(recommender_unknown_user exM 123 10 (by decide)).1,
   (recommender_unknown_user exM 123 10 (by decide)).2 2 (by decide)⟩

/-- Invariant of the recommendation walk: starting from a deduplicated
accumulator of unrated items within the quota, the walk preserves
deduplication, unratedness and the quota bound. -/
theorem recsLoop_invariant (M : UserItemMatrix) (user : UserId) (numRecs : ℕ) :
    ∀ (ns : List UserId) (acc : List ItemId),
    acc.Nodup → (∀ i ∈ acc, ¬ (M.rating user i).isSome = true) →
    acc.length ≤ numRecs →
    (recsLoop M user numRecs ns acc).Nodup ∧
    (∀ i ∈ recsLoop M user numRecs ns acc, ¬ (M.rating user i).isSome = true) ∧
    (recsLoop M user numRecs ns acc).length ≤ numRecs := by
  intro ns
  induction ns with
  | nil =>
    intro acc h1 h2 h3
    rw [recsLoop]
    exact ⟨h1, h2, h3⟩
  | cons n t ih =>
    intro acc h1 h2 h3
    rw [recsLoop]
    by_cases hq : numRecs ≤ acc.length
    · rw [if_pos hq]
      exact ⟨h1, h2, h3⟩
    · rw [if_neg hq]
      apply ih
      · refine List.Nodup.sublist (List.take_sublist _ _) ?_
        rw [List.nodup_append]
        refine ⟨h1, (M.items_nodup.filter _).filter _, ?_⟩
        intro x hx hx2
        have hpred := (List.mem_filter.mp hx2).2
        simp only [Bool.and_eq_true, Bool.not_eq_true'] at hpred
        exact absurd hx (by simpa using hpred.2)
      · intro i hi
        have hi' := List.mem_of_mem_take hi
        rcases List.mem_append.mp hi' with hcase | hcase
        · exact h2 i hcase
        · have hpred := (List.mem_filter.mp hcase).2
          simp only [Bool.and_eq_true, Bool.not_eq_true'] at hpred
          simp [hpred.1]
      · rw [List.length_take]
        exact min_le_left _ _

/-- C1: whenever make_recommendations succeeds it returns a list of at most
num_recs distinct items none of which the user has already rated; running
out of neighbors or liked items just makes the list shorter (possibly
empty), never a failure. -/
theorem make_recommendations_bounded (M : UserItemMatrix) (user : UserId) (k : ℕ)
    (l : List ItemId) (h : make_recommendations M user k = some l) :
    l.length ≤ k ∧ l.Nodup ∧ ∀ i ∈ l, i ∉ movies_watched M user := by
  unfold make_recommendations at h
  rcases Option.map_eq_some'.mp h with ⟨ns, _, hl⟩
  have hinv := recsLoop_invariant M user k ns []
    List.nodup_nil (by intro i hi; cases hi) (by simp)
  subst hl
  refine ⟨hinv.2.2, hinv.1, fun i hi hmem => ?_⟩
  exact hinv.2.1 i hi ((mem_movies_watched M user i).mp hmem).2

/-- C1 witness: on the concrete instance user 5 receives the single
recommendation 60, which user 5 has not rated, within the quota 10. -/
theorem make_recommendations_bounded_inst :
    (60 : ItemId) ∉ movies_watched exM 5 ∧
    ([(60 : ItemId)].length ≤ 10 ∧ [(60 : ItemId)].Nodup) := by
  have h := make_recommendations_bounded exM 5 10 [60] (by decide)
  exact ⟨h.2.2 60 (by simp), h.1, h.2.1⟩

/-- C8: for a user of the filtered Activity Map, find_closest_neighbors
succeeds, and the returned sequence consists exactly of the other users of
the map whose Euclidean distance to the input user is defined (users with
undefined distance are excluded), in ascending order of that distance. -/
theorem find_closest_neighbors_sound (M : UserItemMatrix) (user : UserId)
    (h : user ∈ movies_to_analyze M) :
    ∀ ns, find_closest_neighbors M user = some ns →
    ((∀ v, v ∈ ns ↔
      (v ∈ movies_to_analyze M ∧ v ≠ user ∧ compute_euclidean_dist M user v ≠ none)) ∧
    List.Pairwise (fun a b => ∀ x y, compute_euclidean_dist M user a = some x →
      compute_euclidean_dist M user b = some y → x ≤ y) ns) := by
  intro ns hns
  unfold find_closest_neighbors at hns
  rw [if_pos h] at hns
  have hns' : ns = rankedNeighbors M user := (Option.some_inj.mp hns).symm
  subst hns'
  constructor
  · intro v
    unfold rankedNeighbors
    rw [List.mem_insertionSort, List.mem_filter]
    simp [Option.ne_none_iff_isSome, Option.isSome_iff_exists, compute_euclidean_dist,
      and_assoc]
  · haveI hto : IsTotal UserId (fun a b => neighborKey M user a ≤ neighborKey M user b) :=
      ⟨fun a b => le_total _ _⟩
    haveI htr : IsTrans UserId (fun a b => neighborKey M user a ≤ neighborKey M user b) :=
      ⟨fun a b c hab hbc => le_trans hab hbc⟩
    have hs := List.sorted_insertionSort
      (fun a b => neighborKey M user a ≤ neighborKey M user b)
      ((movies_to_analyze M).filter
        (fun v => decide (v ≠ user) && (distSq M user v).isSome))
    refine List.Pairwise.imp ?_ hs
    intro a b hab x y hx hy
    unfold compute_euclidean_dist at hx hy
    rcases Option.map_eq_some'.mp hx with ⟨qa, hqa, hxa⟩
    rcases Option.map_eq_some'.mp hy with ⟨qb, hqb, hyb⟩
    have ha : neighborKey M user a = qa := by rw [neighborKey, hqa]; rfl
    have hb : neighborKey M user b = qb := by rw [neighborKey, hqb]; rfl
    rw [ha, hb] at hab
    rw [← hxa, ← hyb]
    exact Real.sqrt_le_sqrt (by exact_mod_cast hab)

/-- C8 witness: on the concrete instance find_closest_neighbors succeeds on
user 2 with the sequence of users 5 and 7, and membership of user 5 in it is
exactly membership in the filtered map with a defined distance. -/
theorem find_closest_neighbors_sound_inst :
    5 ∈ [5, 7] ↔
      (5 ∈ movies_to_analyze exM ∧ 5 ≠ 2 ∧ compute_euclidean_dist exM 2 5 ≠ none) :=
  (find_closest_neighbors_sound exM 2 (by decide) [5, 7] (by decide)).1 5

/-- C3 counterexample: user 3 of the concrete instance has one rated item
(so a nonempty rated-item set), yet the self-correlation is the undefined
sentinel rather than 1.0, because the restricted vector's sample variance is
zero. -/
theorem compute_correlation_self_counterexample :
    (movies_watched exM 3).Nonempty ∧ compute_correlation exM 3 3 = none := by
  refine ⟨by decide, ?_⟩
  have hv : svar exM 3 (commonItems exM 3 3) = 0 := by
    unfold svar scov
    rw [show (commonItems exM 3 3).card = 1 by decide]
    norm_num
  unfold compute_correlation
  rw [if_neg (by decide : ¬ commonItems exM 3 3 = ∅), if_pos (Or.inl hv)]

/-- C3 (amended): the self-correlation is exactly 1.0 for every user whose
rating vector over the rated-item set has nonzero sample variance, which
holds exactly when the user rated at least two items with two different
values; a user with a single rated item or all-equal ratings gets the
undefined sentinel instead. -/
theorem compute_correlation_self_one (M : UserItemMatrix) (u : UserId)
    (i j : ItemId) (hi : i ∈ movies_watched M u) (hj : j ∈ movies_watched M u)
    (hne : ratingD M u i ≠ ratingD M u j) :
    compute_correlation M u u = some 1 := by
  have hij : i ≠ j := fun he => hne (he ▸ rfl)
  have hcard : 1 < (movies_watched M u).card :=
    Finset.one_lt_card.mpr ⟨i, hi, j, hj, hij⟩
  have hd : (0 : ℚ) < ((movies_watched M u).card : ℚ) - 1 := by
    have : (1 : ℚ) < ((movies_watched M u).card : ℚ) := by exact_mod_cast hcard
    linarith
  have hnum_nonneg : (0 : ℚ) ≤ Finset.sum (movies_watched M u) (fun x =>
      ((ratingD M u x : ℚ) - smean M u (movies_watched M u)) *
      ((ratingD M u x : ℚ) - smean M u (movies_watched M u))) :=
    Finset.sum_nonneg (fun x _ => mul_self_nonneg _)
  have hvar_eq : svar M u (movies_watched M u) =
      Finset.sum (movies_watched M u) (fun x =>
        ((ratingD M u x : ℚ) - smean M u (movies_watched M u)) *
        ((ratingD M u x : ℚ) - smean M u (movies_watched M u))) /
      (((movies_watched M u).card : ℚ) - 1) := rfl
  have hvnn : (0 : ℚ) ≤ svar M u (movies_watched M u) := by
    rw [hvar_eq]
    exact div_nonneg hnum_nonneg hd.le
  have hvne : svar M u (movies_watched M u) ≠ 0 := by
    intro h0
    rw [hvar_eq] at h0
    have hnum0 := (div_eq_zero_iff.mp h0).resolve_right (ne_of_gt hd)
    have hall := (Finset.sum_eq_zero_iff_of_nonneg
      (fun x _ => mul_self_nonneg _)).mp hnum0
    have e1 : (ratingD M u i : ℚ) = smean M u (movies_watched M u) :=
      sub_eq_zero.mp (mul_self_eq_zero.mp (hall i hi))
    have e2 : (ratingD M u j : ℚ) = smean M u (movies_watched M u) :=
      sub_eq_zero.mp (mul_self_eq_zero.mp (hall j hj))
    exact hne (by exact_mod_cast e1.trans e2.symm)
  have hscov : scov M u u (movies_watched M u) = svar M u (movies_watched M u) := rfl
  unfold compute_correlation
  rw [commonItems_self M u]
  rw [if_neg (Finset.ne_empty_of_mem hi), if_neg (fun hc => hc.elim hvne hvne), hscov]
  rw [Real.mul_self_sqrt (by exact_mod_cast hvnn)]
  rw [div_self (by exact_mod_cast hvne)]

/-- C3 witness: user 2 of the concrete instance rated items 10 and 20 with
different values, and the self-correlation is exactly 1. -/
theorem compute_correlation_self_one_inst :
    compute_correlation exM 2 2 = some 1 :=
  compute_correlation_self_one exM 2 10 20 (by decide) (by decide) (by decide)

end CollabFilter
